import Mathlib

/-!
Verification of the max553x DAC driver (src/lib.rs).

The driver targets the MAX5532/MAX5533/MAX5534/MAX5535 family of dual
12-bit DACs driven over SPI.  The source consists of two pure command
encoders (`command_bytes`, `vref_command_bytes`), the `Vref` enum, and
four macro-generated typestate structs `Max5532<W, MODE>` ..
`Max5535<W, MODE>` whose methods each perform a single 2-byte SPI write.

Machine integers are embedded as `Nat` with explicit `% 256` where the
Rust `u8` operations wrap; the SPI writer is embedded as an explicit
state-passing function `W → List Nat → Except E W`, and the
macro-generated method sets of the four variants are embedded as a step
function on (variant, mode, operation).
-/

/-- Operating mode of the device: the three phantom type tags `Shutdown`,
`Standby`, `Normal` of src/lib.rs (lines 10-17). -/
inductive Mode where
  | Shutdown
  | Standby
  | Normal
deriving DecidableEq, Repr

/-- `Vref` enum from src/lib.rs lines 299-310: internal voltage reference
for MAX5533/MAX5535. -/
inductive Vref where
  | M1214
  | M1940
  | M2425
  | M3885
deriving DecidableEq, Repr

/-- The Rust discriminants of `Vref` (what `vref as u8` evaluates to):
`M1214 = 0b00`, `M1940 = 0b01`, `M2425 = 0b10`, `M3885 = 0b11`. -/
def Vref.code : Vref → Nat
  | .M1214 => 0b00
  | .M1940 => 0b01
  | .M2425 => 0b10
  | .M3885 => 0b11

/-- `command_bytes` from src/lib.rs lines 19-28.  `control_bits: u8`,
`data_bits: u16`; data above 12 bits is saturated to `0xfff`,
then byte0 is `(control_bits << 4) | ((data_bits >> 8) as u8 & 0xf)` and
byte1 is `data_bits as u8`.  The `u8` shift and cast wrap modulo 256. -/
def command_bytes (control_bits : Nat) (data_bits : Nat) : List Nat :=
  let data := if 0xfff < data_bits then 0xfff else data_bits
  [((control_bits <<< 4) % 256) ||| (((data >>> 8) % 256) &&& 0xf), data % 256]

/-- `vref_command_bytes` from src/lib.rs lines 30-35: byte0 is
`(control_bits << 4) | ((vref as u8) << 2)`, byte1 is 0. -/
def vref_command_bytes (control_bits : Nat) (vref : Vref) : List Nat :=
  [((control_bits <<< 4) % 256) ||| ((vref.code <<< 2) % 256), 0]

/-- The decoded 12-bit data field of a 2-byte command:
`(byte0 & 0xF) << 8 | byte1`. -/
def decoded_data (bytes : List Nat) : Nat :=
  ((bytes.getD 0 0 &&& 0xf) <<< 8) ||| bytes.getD 1 0

/-- The decoded 4-bit control field of a 2-byte command: `byte0 >> 4`. -/
def decoded_control (bytes : List Nat) : Nat :=
  bytes.getD 0 0 >>> 4

/-- The decoded 2-bit reference field of a mode-entry command:
bits 2-3 of byte0. -/
def decoded_vref (bytes : List Nat) : Nat :=
  (bytes.getD 0 0 >>> 2) &&& 0b11

/-- The four chip variants, i.e. the four structs generated by
`impl_max!` in src/lib.rs lines 282-297. -/
inductive Variant where
  | Max5532
  | Max5533
  | Max5534
  | Max5535
deriving DecidableEq, Repr

/-- Which variants have a standby mode: `impl_into_mode!` (lines 38-49)
expands to nothing for `Max5532, Standby` and `Max5534, Standby`, and
`impl_standby_shutdown!` (lines 106-117) generates the `Standby` impl
only for Max5533 and Max5535. -/
def hasStandby : Variant → Bool
  | .Max5533 => true
  | .Max5535 => true
  | _ => false

/-- Which variants take an internal voltage reference: `impl_into_mode!`
dispatches Max5533 and Max5535 to the `@with_vref` arm (src/lib.rs
lines 41-43, 47-49), the other two to the plain arm. -/
def hasVref : Variant → Bool
  | .Max5533 => true
  | .Max5535 => true
  | _ => false

/-- A device handle `$max_ty<W, MODE>` (src/lib.rs lines 209-213):
owns the writer, with the variant and the mode as phantom tags. -/
structure Max553x (W : Type) (variant : Variant) (mode : Mode) where
  writer : W

/-- `new` from src/lib.rs lines 216-219: available only on the
`Shutdown`-tagged type, stores the writer, performs no write
(it is a `const fn` without the `Write` bound in scope). -/
def Max553x.new (variant : Variant) {W : Type} (writer : W) :
    Max553x W variant .Shutdown :=
  ⟨writer⟩

/-- `release` from src/lib.rs lines 221-224: available only on the
`Shutdown`-tagged type, returns the contained writer. -/
def Max553x.release {W : Type} {variant : Variant}
    (d : Max553x W variant .Shutdown) : W :=
  d.writer

/-- One public method invocation on a device handle, with its arguments. -/
inductive Op where
  | input_a (value : Nat)
  | input_b (value : Nat)
  | into_normal (vref : Option Vref)
  | into_shutdown (vref : Option Vref)
  | into_standby (vref : Vref)
  | dac_ab
  | input_a_dac_ab (value : Nat)
  | input_b_dac_ab (value : Nat)
  | input_ab_dac_ab (value : Nat)
deriving DecidableEq, Repr

/-- Availability and effect of the four DAC-loading methods.  In the
`Normal` impl block (src/lib.rs lines 247-276) they write and keep the
mode; `impl_standby_shutdown!` (lines 106-158) re-exposes them on the
`Shutdown` handle of every variant and on the `Standby` handle of
Max5533/Max5535 only, each writing the same command and returning a
`Normal` handle. -/
def dacStep (variant : Variant) (mode : Mode) (control_bits value : Nat) :
    Option (Mode × List Nat) :=
  match mode with
  | .Normal => some (.Normal, command_bytes control_bits value)
  | .Shutdown => some (.Normal, command_bytes control_bits value)
  | .Standby =>
    if hasStandby variant then some (.Normal, command_bytes control_bits value)
    else none

/-- Availability and effect of each method, per variant and mode:
`none` when the method does not exist on that handle type (the Rust
call would not compile), otherwise the new mode tag and the bytes
passed to the single `writer.write` call.
- `input_a` / `input_b`: generic impl block src/lib.rs lines 227-241,
  every mode, controls `0b0001` / `0b0010`, mode kept.
- `into_normal` (control `0b1101`) and `into_shutdown` (control
  `0b1110`): generic impl block lines 243-244 via `impl_into_mode!`;
  on Max5533/Max5535 they take a `Vref` and send
  `vref_command_bytes`, on Max5532/Max5534 they take no argument and
  send `command_bytes(control, 0)` (lines 50-67).
- `into_standby` (control `0b1100`): only in the `Normal` impl block
  (line 275) and only generated for Max5533/Max5535.
- the four DAC-loading methods: see `dacStep`. -/
def step (variant : Variant) (mode : Mode) : Op → Option (Mode × List Nat)
  | .input_a value => some (mode, command_bytes 0b0001 value)
  | .input_b value => some (mode, command_bytes 0b0010 value)
  | .into_normal ovref =>
    if hasVref variant then
      match ovref with
      | some r => some (.Normal, vref_command_bytes 0b1101 r)
      | none => none
    else
      match ovref with
      | some _ => none
      | none => some (.Normal, command_bytes 0b1101 0)
  | .into_shutdown ovref =>
    if hasVref variant then
      match ovref with
      | some r => some (.Shutdown, vref_command_bytes 0b1110 r)
      | none => none
    else
      match ovref with
      | some _ => none
      | none => some (.Shutdown, command_bytes 0b1110 0)
  | .into_standby r =>
    if hasStandby variant then
      match mode with
      | .Normal => some (.Standby, vref_command_bytes 0b1100 r)
      | _ => none
    else none
  | .dac_ab => dacStep variant mode 0b1000 0
  | .input_a_dac_ab value => dacStep variant mode 0b1001 value
  | .input_b_dac_ab value => dacStep variant mode 0b1010 value
  | .input_ab_dac_ab value => dacStep variant mode 0b1111 value

/-- Run one method against a fallible writer `wf` (the embedding of
`embedded_hal::blocking::spi::Write`): every method body is
`self.writer.write(&bytes)?` followed by `Ok(handle)`, so the writer
error is returned unchanged and the new handle exists only on success.
`none` means the method does not exist on this handle type. -/
def runOp {W E : Type} (wf : W → List Nat → Except E W)
    (variant : Variant) (mode : Mode) (w : W) (op : Op) :
    Option (Except E (Mode × W)) :=
  match step variant mode op with
  | none => none
  | some (mode', bytes) =>
    some (match wf w bytes with
      | .error e => .error e
      | .ok w' => .ok (mode', w'))

/-- Run a sequence of methods with an always-succeeding writer,
accumulating the trace of byte pairs written; `none` as soon as a
method is unavailable on the current handle type. -/
def exec (variant : Variant) :
    Mode → List (List Nat) → List Op → Option (Mode × List (List Nat))
  | mode, trace, [] => some (mode, trace)
  | mode, trace, op :: ops =>
    match step variant mode op with
    | none => none
    | some (mode', bytes) => exec variant mode' (trace ++ [bytes]) ops

lemma command_bytes_of_le (c v : Nat) (hc : c < 16) (hv : v ≤ 0xfff) :
    command_bytes c v = [16 * c + v / 256, v % 256] := by
  have hsh : c <<< 4 = 16 * c := by rw [Nat.shiftLeft_eq]; ring
  have hdiv : v >>> 8 = v / 256 := by rw [Nat.shiftRight_eq_div_pow]
  have hdlt : v / 256 < 16 := by omega
  unfold command_bytes
  simp only [if_neg (by omega : ¬ 0xfff < v)]
  rw [hsh, Nat.mod_eq_of_lt (by omega : 16 * c < 256), hdiv,
    Nat.mod_eq_of_lt (by omega : v / 256 < 256),
    (by norm_num : (0xf : Nat) = 2 ^ 4 - 1), Nat.and_pow_two_sub_one_eq_mod,
    Nat.mod_eq_of_lt (by omega : v / 256 < 2 ^ 4),
    (by ring : 16 * c = 2 ^ 4 * c), ← Nat.mul_add_lt_is_or hdlt]

lemma decoded_data_command_bytes (c v : Nat) (hc : c < 16) (hv : v ≤ 0xfff) :
    decoded_data (command_bytes c v) = v := by
  rw [command_bytes_of_le c v hc hv]
  unfold decoded_data
  simp only [List.getD_cons_zero, List.getD_cons_succ]
  rw [(by norm_num : (0xf : Nat) = 2 ^ 4 - 1), Nat.and_pow_two_sub_one_eq_mod,
    (by omega : (16 * c + v / 256) % 2 ^ 4 = v / 256), Nat.shiftLeft_eq,
    (by ring : v / 256 * 2 ^ 8 = 2 ^ 8 * (v / 256)),
    ← Nat.mul_add_lt_is_or (by omega : v % 256 < 2 ^ 8)]
  omega

lemma decoded_control_command_bytes (c v : Nat) (hc : c < 16) (hv : v ≤ 0xfff) :
    decoded_control (command_bytes c v) = c := by
  rw [command_bytes_of_le c v hc hv]
  unfold decoded_control
  simp only [List.getD_cons_zero]
  rw [Nat.shiftRight_eq_div_pow]
  omega

/-- C1: for every 4-bit control code and every value above 4095,
`command_bytes` saturates the 12-bit data field: the decoded data field
of the resulting two bytes is 4095 (and in particular differs from
`value mod 4096` whenever the latter is not itself 4095). -/
theorem command_bytes_saturates (c v : Nat) (hc : c < 16) (hv : 4095 < v) :
    command_bytes c v = [16 * c + 15, 255] ∧
    decoded_data (command_bytes c v) = 4095 ∧
    (v % 4096 ≠ 4095 → decoded_data (command_bytes c v) ≠ v % 4096) := by
  have hsat : command_bytes c v = command_bytes c 4095 := by
    unfold command_bytes
    norm_num [if_pos (show (0xfff : Nat) < v by omega)]
  have h1 : command_bytes c 4095 = [16 * c + 15, 255] := by
    rw [command_bytes_of_le c 4095 hc (by norm_num)]
  have h2 : decoded_data (command_bytes c 4095) = 4095 :=
    decoded_data_command_bytes c 4095 hc (by norm_num)
  refine ⟨hsat ▸ h1, hsat ▸ h2, ?_⟩
  intro hne
  rw [hsat, h2]
  omega

/-- C1 witness: control 1, value 5000. -/
theorem command_bytes_saturates_witness :
    command_bytes 1 5000 = [16 * 1 + 15, 255] ∧
    decoded_data (command_bytes 1 5000) = 4095 ∧
    (5000 % 4096 ≠ 4095 → decoded_data (command_bytes 1 5000) ≠ 5000 % 4096) :=
  command_bytes_saturates 1 5000 (by decide) (by decide)

/-- C2: for every 4-bit control code and every value in 0..=4095,
`command_bytes` round-trips: `(byte0 & 0xF) << 8 | byte1` recovers the
value and `byte0 >> 4` recovers the control code; in particular
`command_bytes 0b0001 1234 = [0b00010100, 0b11010010]` and
`command_bytes 0b0010 4095 = [0b00101111, 0b11111111]`. -/
theorem command_bytes_round_trip (c v : Nat) (hc : c < 16) (hv : v ≤ 4095) :
    decoded_control (command_bytes c v) = c ∧
    decoded_data (command_bytes c v) = v ∧
    command_bytes 0b0001 1234 = [0b00010100, 0b11010010] ∧
    command_bytes 0b0010 4095 = [0b00101111, 0b11111111] :=
  ⟨decoded_control_command_bytes c v hc (by omega),
   decoded_data_command_bytes c v hc (by omega),
   by decide, by decide⟩

/-- C2 witness: control 7, value 1234. -/
theorem command_bytes_round_trip_witness :
    decoded_control (command_bytes 7 1234) = 7 ∧
    decoded_data (command_bytes 7 1234) = 1234 ∧
    command_bytes 0b0001 1234 = [0b00010100, 0b11010010] ∧
    command_bytes 0b0010 4095 = [0b00101111, 0b11111111] :=
  command_bytes_round_trip 7 1234 (by decide) (by decide)

lemma vref_command_bytes_eq (c : Nat) (r : Vref) (hc : c < 16) :
    vref_command_bytes c r = [16 * c + 4 * r.code, 0] := by
  have hcode : r.code < 4 := by cases r <;> decide
  unfold vref_command_bytes
  rw [Nat.shiftLeft_eq, Nat.shiftLeft_eq]
  norm_num
  rw [Nat.mod_eq_of_lt (by omega : c * 16 < 256),
    Nat.mod_eq_of_lt (by omega : r.code * 4 < 256),
    (by ring : c * 16 = 2 ^ 4 * c),
    ← Nat.mul_add_lt_is_or (by omega : r.code * 4 < 2 ^ 4)]
  ring_nf

lemma decoded_control_vref_command_bytes (c : Nat) (r : Vref) (hc : c < 16) :
    decoded_control (vref_command_bytes c r) = c := by
  have hcode : r.code < 4 := by cases r <;> decide
  rw [vref_command_bytes_eq c r hc]
  unfold decoded_control
  simp only [List.getD_cons_zero]
  rw [Nat.shiftRight_eq_div_pow]
  omega

lemma decoded_vref_vref_command_bytes (c : Nat) (r : Vref) (hc : c < 16) :
    decoded_vref (vref_command_bytes c r) = r.code := by
  have hcode : r.code < 4 := by cases r <;> decide
  rw [vref_command_bytes_eq c r hc]
  unfold decoded_vref
  simp only [List.getD_cons_zero]
  rw [Nat.shiftRight_eq_div_pow,
    (by norm_num : (0b11 : Nat) = 2 ^ 2 - 1), Nat.and_pow_two_sub_one_eq_mod]
  omega

/-- `command_bytes` always clamps its data to at most `0xfff`, so the
control nibble decodes correctly for every data value, not only
in-range ones. -/
lemma decoded_control_command_bytes_all (c v : Nat) (hc : c < 16) :
    decoded_control (command_bytes c v) = c := by
  by_cases hv : v ≤ 0xfff
  · exact decoded_control_command_bytes c v hc hv
  · have hsat : command_bytes c v = command_bytes c 0xfff := by
      unfold command_bytes
      norm_num [if_pos (show (0xfff : Nat) < v by omega)]
    rw [hsat]
    exact decoded_control_command_bytes c 0xfff hc (by norm_num)

/-- C3: for every 4-bit control code and every reference,
`vref_command_bytes` packs the control code into the high nibble of
byte0 and the 2-bit reference code into bits 2-3 of byte0, with byte1
always 0, and the reference codes are fixed as M1214 = 00, M1940 = 01,
M2425 = 10, M3885 = 11. -/
theorem vref_command_bytes_spec (c : Nat) (r : Vref) (hc : c < 16) :
    vref_command_bytes c r = [16 * c + 4 * r.code, 0] ∧
    decoded_control (vref_command_bytes c r) = c ∧
    decoded_vref (vref_command_bytes c r) = r.code ∧
    (vref_command_bytes c r).getD 1 0 = 0 ∧
    Vref.code .M1214 = 0b00 ∧ Vref.code .M1940 = 0b01 ∧
    Vref.code .M2425 = 0b10 ∧ Vref.code .M3885 = 0b11 :=
  ⟨vref_command_bytes_eq c r hc,
   decoded_control_vref_command_bytes c r hc,
   decoded_vref_vref_command_bytes c r hc,
   by rw [vref_command_bytes_eq c r hc]; rfl,
   by decide, by decide, by decide, by decide⟩

/-- C3 witness: control 0b1101, reference M1940. -/
theorem vref_command_bytes_spec_witness :
    vref_command_bytes 0b1101 .M1940 = [16 * 0b1101 + 4 * Vref.code .M1940, 0] ∧
    decoded_control (vref_command_bytes 0b1101 .M1940) = 0b1101 ∧
    decoded_vref (vref_command_bytes 0b1101 .M1940) = Vref.code .M1940 ∧
    (vref_command_bytes 0b1101 .M1940).getD 1 0 = 0 ∧
    Vref.code .M1214 = 0b00 ∧ Vref.code .M1940 = 0b01 ∧
    Vref.code .M2425 = 0b10 ∧ Vref.code .M3885 = 0b11 :=
  vref_command_bytes_spec 0b1101 .M1940 (by decide)

/-- C8: for every variant and every mode, `input_a` and `input_b` are
available, issue one write with control code 0b0001 respectively
0b0010, and leave the handle's mode tag unchanged. -/
theorem input_ops_available_and_preserve_mode (v : Variant) (m : Mode) (val : Nat) :
    step v m (.input_a val) = some (m, command_bytes 0b0001 val) ∧
    step v m (.input_b val) = some (m, command_bytes 0b0010 val) ∧
    decoded_control (command_bytes 0b0001 val) = 0b0001 ∧
    decoded_control (command_bytes 0b0010 val) = 0b0010 :=
  ⟨rfl, rfl,
   decoded_control_command_bytes_all 0b0001 val (by decide),
   decoded_control_command_bytes_all 0b0010 val (by decide)⟩

/-- C4: on a variant with standby support, the sequence
`into_normal(r1)`, `into_standby(r2)`, `into_shutdown(r3)` from a
`Shutdown` handle issues exactly three writes carrying control codes
0b1101, 0b1100, 0b1110 in that order, each with the reference code in
bits 2-3 of byte0, and ends on a `Shutdown` handle. -/
theorem into_mode_sequence (v : Variant) (hv : hasStandby v = true) (r1 r2 r3 : Vref) :
    exec v .Shutdown []
      [.into_normal (some r1), .into_standby r2, .into_shutdown (some r3)] =
      some (.Shutdown, [vref_command_bytes 0b1101 r1,
        vref_command_bytes 0b1100 r2, vref_command_bytes 0b1110 r3]) ∧
    decoded_control (vref_command_bytes 0b1101 r1) = 0b1101 ∧
    decoded_vref (vref_command_bytes 0b1101 r1) = r1.code ∧
    decoded_control (vref_command_bytes 0b1100 r2) = 0b1100 ∧
    decoded_vref (vref_command_bytes 0b1100 r2) = r2.code ∧
    decoded_control (vref_command_bytes 0b1110 r3) = 0b1110 ∧
    decoded_vref (vref_command_bytes 0b1110 r3) = r3.code := by
  refine ⟨?_,
    decoded_control_vref_command_bytes 0b1101 r1 (by decide),
    decoded_vref_vref_command_bytes 0b1101 r1 (by decide),
    decoded_control_vref_command_bytes 0b1100 r2 (by decide),
    decoded_vref_vref_command_bytes 0b1100 r2 (by decide),
    decoded_control_vref_command_bytes 0b1110 r3 (by decide),
    decoded_vref_vref_command_bytes 0b1110 r3 (by decide)⟩
  cases v <;> simp_all [exec, step, hasStandby, hasVref]

/-- C4 witness: Max5533, references M1214, M1940, M3885. -/
theorem into_mode_sequence_witness :
    exec .Max5533 .Shutdown []
      [.into_normal (some .M1214), .into_standby .M1940, .into_shutdown (some .M3885)] =
      some (.Shutdown, [vref_command_bytes 0b1101 .M1214,
        vref_command_bytes 0b1100 .M1940, vref_command_bytes 0b1110 .M3885]) ∧
    decoded_control (vref_command_bytes 0b1101 .M1214) = 0b1101 ∧
    decoded_vref (vref_command_bytes 0b1101 .M1214) = Vref.code .M1214 ∧
    decoded_control (vref_command_bytes 0b1100 .M1940) = 0b1100 ∧
    decoded_vref (vref_command_bytes 0b1100 .M1940) = Vref.code .M1940 ∧
    decoded_control (vref_command_bytes 0b1110 .M3885) = 0b1110 ∧
    decoded_vref (vref_command_bytes 0b1110 .M3885) = Vref.code .M3885 :=
  into_mode_sequence .Max5533 (by decide) .M1214 .M1940 .M3885

/-- C5: each of the four DAC-loading methods, invoked on a `Shutdown` or
`Standby` handle (the latter existing only on standby-capable variants)
or on a `Normal` handle, issues one write with the same bytes (hence
the same control code 0b1000/0b1001/0b1010/0b1111) as the Normal-mode
method of the same name and yields a `Normal` handle. -/
theorem dac_load_enters_normal (v : Variant) (m : Mode) (val : Nat)
    (h : m = Mode.Standby → hasStandby v = true) :
    step v m .dac_ab = some (.Normal, command_bytes 0b1000 0) ∧
    step v m (.input_a_dac_ab val) = some (.Normal, command_bytes 0b1001 val) ∧
    step v m (.input_b_dac_ab val) = some (.Normal, command_bytes 0b1010 val) ∧
    step v m (.input_ab_dac_ab val) = some (.Normal, command_bytes 0b1111 val) ∧
    decoded_control (command_bytes 0b1000 0) = 0b1000 ∧
    decoded_control (command_bytes 0b1001 val) = 0b1001 ∧
    decoded_control (command_bytes 0b1010 val) = 0b1010 ∧
    decoded_control (command_bytes 0b1111 val) = 0b1111 := by
  refine ⟨?_, ?_, ?_, ?_,
    decoded_control_command_bytes_all 0b1000 0 (by decide),
    decoded_control_command_bytes_all 0b1001 val (by decide),
    decoded_control_command_bytes_all 0b1010 val (by decide),
    decoded_control_command_bytes_all 0b1111 val (by decide)⟩ <;>
    cases m <;> cases v <;> simp_all [step, dacStep, hasStandby]

/-- C5 witness: Max5534 in `Shutdown`, value 1234. -/
theorem dac_load_enters_normal_witness :
    step .Max5534 .Shutdown .dac_ab = some (.Normal, command_bytes 0b1000 0) ∧
    step .Max5534 .Shutdown (.input_a_dac_ab 1234) =
      some (.Normal, command_bytes 0b1001 1234) ∧
    step .Max5534 .Shutdown (.input_b_dac_ab 1234) =
      some (.Normal, command_bytes 0b1010 1234) ∧
    step .Max5534 .Shutdown (.input_ab_dac_ab 1234) =
      some (.Normal, command_bytes 0b1111 1234) ∧
    decoded_control (command_bytes 0b1000 0) = 0b1000 ∧
    decoded_control (command_bytes 0b1001 1234) = 0b1001 ∧
    decoded_control (command_bytes 0b1010 1234) = 0b1010 ∧
    decoded_control (command_bytes 0b1111 1234) = 0b1111 :=
  dac_load_enters_normal .Max5534 .Shutdown 1234 (by simp)

lemma step_not_standby {v : Variant} (hv : hasStandby v = false) {m m' : Mode}
    {op : Op} {bytes : List Nat} (hm : m ≠ .Standby)
    (h : step v m op = some (m', bytes)) : m' ≠ .Standby := by
  intro hM
  subst hM
  cases op with
  | input_a value => simp [step] at h; exact hm h.1
  | input_b value => simp [step] at h; exact hm h.1
  | into_normal ov =>
    cases ov <;> by_cases hvf : hasVref v <;> simp [step, hvf] at h
  | into_shutdown ov =>
    cases ov <;> by_cases hvf : hasVref v <;> simp [step, hvf] at h
  | into_standby r => simp [step, hv] at h
  | dac_ab => cases m <;> simp [step, dacStep, hv] at h
  | input_a_dac_ab value => cases m <;> simp [step, dacStep, hv] at h
  | input_b_dac_ab value => cases m <;> simp [step, dacStep, hv] at h
  | input_ab_dac_ab value => cases m <;> simp [step, dacStep, hv] at h

lemma exec_not_standby {v : Variant} (hv : hasStandby v = false) :
    ∀ (ops : List Op) (m : Mode) (tr : List (List Nat)) (m' : Mode)
      (tr' : List (List Nat)), m ≠ .Standby →
      exec v m tr ops = some (m', tr') → m' ≠ .Standby := by
  intro ops
  induction ops with
  | nil =>
    intro m tr m' tr' hm h
    simp only [exec, Option.some.injEq, Prod.mk.injEq] at h
    rw [← h.1]
    exact hm
  | cons op ops ih =>
    intro m tr m' tr' hm h
    unfold exec at h
    cases hstep : step v m op with
    | none => rw [hstep] at h; exact absurd h (by simp)
    | some p =>
      obtain ⟨m1, bytes⟩ := p
      rw [hstep] at h
      exact ih m1 (tr ++ [bytes]) m' tr' (step_not_standby hv hm hstep) h

/-- C6: on a variant without standby support (Max5532, Max5534), no
sequence of available operations starting from the `Shutdown` handle
produced by `new` can reach a `Standby`-moded handle, and the
mode-entry operations of these variants do not accept a
reference-voltage argument (`into_normal`/`into_shutdown` with a
reference, like `into_standby` itself, do not exist on them). -/
theorem no_standby_without_capability (v : Variant) (hv : hasStandby v = false) :
    (∀ (ops : List Op) (m' : Mode) (tr' : List (List Nat)),
      exec v .Shutdown [] ops = some (m', tr') → m' ≠ .Standby) ∧
    (∀ (m : Mode) (r : Vref),
      step v m (.into_normal (some r)) = none ∧
      step v m (.into_shutdown (some r)) = none ∧
      step v m (.into_standby r) = none) := by
  constructor
  · intro ops m' tr' h
    exact exec_not_standby hv ops .Shutdown [] m' tr' (by simp) h
  · intro m r
    cases v <;> simp_all [step, hasStandby, hasVref]

/-- C6 witness: Max5532; running `into_normal()` then `dac_ab()` ends in
`Normal`, not `Standby`, and the reference-taking entry calls do not
exist. -/
theorem no_standby_without_capability_witness :
    Mode.Normal ≠ Mode.Standby ∧
    step .Max5532 .Shutdown (.into_normal (some .M1940)) = none ∧
    step .Max5532 .Shutdown (.into_shutdown (some .M1940)) = none ∧
    step .Max5532 .Shutdown (.into_standby .M1940) = none := by
  have h := no_standby_without_capability .Max5532 (by decide)
  have hrun : exec .Max5532 .Shutdown [] [.into_normal none, .dac_ab] =
      some (.Normal, [command_bytes 0b1101 0, command_bytes 0b1000 0]) := by
    simp [exec, step, dacStep, hasVref]
  exact ⟨h.1 [.into_normal none, .dac_ab] .Normal
      [command_bytes 0b1101 0, command_bytes 0b1000 0] hrun,
    (h.2 .Shutdown .M1940).1, (h.2 .Shutdown .M1940).2.1,
    (h.2 .Shutdown .M1940).2.2⟩

/-- C7: every available method is one `writer.write` followed by
constructing the new handle, so a failed write returns the transport
error unchanged and produces no new handle, while a handle tagged with
the new mode is produced exactly when the write succeeds. -/
theorem transition_error_propagation {W E : Type}
    (wf : W → List Nat → Except E W) (v : Variant) (m : Mode) (w : W)
    (op : Op) (m' : Mode) (bytes : List Nat)
    (hstep : step v m op = some (m', bytes)) :
    (∀ e : E, wf w bytes = .error e → runOp wf v m w op = some (.error e)) ∧
    (∀ w' : W, wf w bytes = .ok w' → runOp wf v m w op = some (.ok (m', w'))) := by
  constructor <;> intro x hx <;> simp [runOp, hstep, hx]

/-- A writer that always fails with error 7, for exercising the error
path of `runOp`. -/
def failWriter : List (List Nat) → List Nat → Except Nat (List (List Nat)) :=
  fun _ _ => .error 7

/-- C7 witness: a failing write during `into_normal` on a Max5533 in
`Shutdown` surfaces the transport error unchanged. -/
theorem transition_error_propagation_witness :
    runOp failWriter .Max5533 .Shutdown [] (.into_normal (some .M1214)) =
      some (.error 7) :=
  (transition_error_propagation failWriter .Max5533 .Shutdown []
    (.into_normal (some .M1214)) .Normal (vref_command_bytes 0b1101 .M1214)
    rfl).1 7 rfl

/-- C9: every available method call performs exactly one write of
exactly 2 bytes: the step relation yields a single byte list of length
2, and running one method appends exactly one entry to the transport
trace. -/
theorem single_two_byte_write (v : Variant) (m : Mode) (op : Op) (m' : Mode)
    (bytes : List Nat) (h : step v m op = some (m', bytes)) :
    bytes.length = 2 ∧
    ∀ tr, exec v m tr [op] = some (m', tr ++ [bytes]) := by
  constructor
  · have hcb : ∀ c d, (command_bytes c d).length = 2 := by
      intro c d; simp [command_bytes]
    have hvb : ∀ c r, (vref_command_bytes c r).length = 2 := by
      intro c r; rfl
    cases op with
    | input_a value => simp [step] at h; rw [← h.2]; exact hcb _ _
    | input_b value => simp [step] at h; rw [← h.2]; exact hcb _ _
    | into_normal ov =>
      cases ov <;> by_cases hvf : hasVref v <;> simp [step, hvf] at h <;>
        (rw [← h.2]; first | exact hcb _ _ | exact hvb _ _)
    | into_shutdown ov =>
      cases ov <;> by_cases hvf : hasVref v <;> simp [step, hvf] at h <;>
        (rw [← h.2]; first | exact hcb _ _ | exact hvb _ _)
    | into_standby r =>
      by_cases hsb : hasStandby v <;> cases m <;> simp [step, hsb] at h
      rw [← h.2]; exact hvb _ _
    | dac_ab =>
      by_cases hsb : hasStandby v <;> cases m <;>
        simp [step, dacStep, hsb] at h <;> (rw [← h.2]; exact hcb _ _)
    | input_a_dac_ab value =>
      by_cases hsb : hasStandby v <;> cases m <;>
        simp [step, dacStep, hsb] at h <;> (rw [← h.2]; exact hcb _ _)
    | input_b_dac_ab value =>
      by_cases hsb : hasStandby v <;> cases m <;>
        simp [step, dacStep, hsb] at h <;> (rw [← h.2]; exact hcb _ _)
    | input_ab_dac_ab value =>
      by_cases hsb : hasStandby v <;> cases m <;>
        simp [step, dacStep, hsb] at h <;> (rw [← h.2]; exact hcb _ _)
  · intro tr
    unfold exec
    rw [h]
    rfl

/-- C9 witness: `input_a(1234)` on a Max5535 in `Normal`. -/
theorem single_two_byte_write_witness :
    (command_bytes 0b0001 1234).length = 2 ∧
    ∀ tr, exec .Max5535 .Normal tr [.input_a 1234] =
      some (.Normal, tr ++ [command_bytes 0b0001 1234]) :=
  single_two_byte_write .Max5535 .Normal (.input_a 1234) .Normal
    (command_bytes 0b0001 1234) rfl

/-- C10: `new` and `release` exist only at the `Shutdown`-tagged handle
type (their Lean types, like the Rust impl block, fix the mode index to
`Shutdown`); `new` stores the writer untouched and performs no
transport write, so the trace is still empty before the first
subsequent operation, and `release` returns the stored writer. -/
theorem new_release_shutdown_only (W : Type) (v : Variant) (w : W) :
    (Max553x.new v w).writer = w ∧
    Max553x.release (Max553x.new v w) = w ∧
    exec v .Shutdown [] [] = some (.Shutdown, []) ∧
    (∀ (op : Op) (m1 : Mode) (bytes : List Nat),
      step v .Shutdown op = some (m1, bytes) →
      exec v .Shutdown [] [op] = some (m1, [bytes])) := by
  refine ⟨rfl, rfl, rfl, ?_⟩
  intro op m1 bytes h
  unfold exec
  rw [h]
  rfl

/-- C10 witness: a Max5532 handle over writer state 0; the first
command reaches the trace at the first operation after `new`. -/
theorem new_release_shutdown_only_witness :
    exec .Max5532 .Shutdown [] [.dac_ab] =
      some (.Normal, [command_bytes 0b1000 0]) :=
  (new_release_shutdown_only Nat .Max5532 0).2.2.2 .dac_ab .Normal
    (command_bytes 0b1000 0) rfl
